import Mathlib

/-!
Verification of the ingestion-and-normalization pipeline of the judicial
process monitor (src/app): the database service (`db_service.py`), the
rule-based classification and summarization engines (`ai_service.py`), and
the registry client's error reclassification (`judicial_api.py`).

The Python code is shallowly embedded: dictionaries become structures of
optional fields, the SQLAlchemy session becomes an explicit `DB` state
threaded through each operation, `datetime.now()` becomes an explicit
parameter, and the external HTTP/model collaborators become parameters
describing their observable replies.
-/

namespace Judicial

/-! ## Python string helpers -/

/-- Model of Python's `str.lower` on one character, covering ASCII letters
and the accented Spanish uppercase letters appearing in the data this
system handles. -/
def lowerChar (c : Char) : Char :=
  if 'A' ≤ c ∧ c ≤ 'Z' then Char.ofNat (c.toNat + 32)
  else if c = 'Á' then 'á'
  else if c = 'É' then 'é'
  else if c = 'Í' then 'í'
  else if c = 'Ó' then 'ó'
  else if c = 'Ú' then 'ú'
  else if c = 'Ñ' then 'ñ'
  else if c = 'Ü' then 'ü'
  else c

/-- Model of Python's `str.lower`. -/
def pyLower (s : String) : String :=
  ⟨s.data.map lowerChar⟩

/-- Model of Python's substring test `sub in s` on character lists. -/
def isInfixB (sub : List Char) : List Char → Bool
  | [] => sub.isEmpty
  | x :: xs => sub.isPrefixOf (x :: xs) || isInfixB sub xs

/-- `sub in s` for strings. -/
def containsSub (sub s : String) : Bool :=
  isInfixB sub.data s.data

/-- Model of Python's single-character `str.split(sep)`: `"".split(c)` is
`[""]`, and separators at the edges produce empty components. -/
def splitOnChar (c : Char) : List Char → List (List Char)
  | [] => [[]]
  | x :: xs =>
    if x = c then [] :: splitOnChar c xs
    else
      match splitOnChar c xs with
      | [] => [[x]]
      | h :: t => (x :: h) :: t

/-- Truthiness of an optional string (`if s:` in Python): `None` and the
empty string are falsy. -/
def truthyStr : Option String → Bool
  | none => false
  | some s => !s.isEmpty

/-! ## Dates -/

/-- A naive Python `datetime` value. -/
structure PyDateTime where
  year : Nat
  month : Nat
  day : Nat
  hour : Nat
  minute : Nat
  second : Nat
deriving DecidableEq, Repr

/-- Gregorian leap-year rule, as implemented by Python's `datetime`. -/
def isLeap (y : Nat) : Bool :=
  (y % 4 = 0 && y % 100 ≠ 0) || y % 400 = 0

/-- Number of days of month `m` of year `y`. -/
def daysInMonth (y m : Nat) : Nat :=
  if m = 2 then (if isLeap y then 29 else 28)
  else if m = 4 ∨ m = 6 ∨ m = 9 ∨ m = 11 then 30
  else 31

/-- A (year, month, day) triple `datetime` accepts. -/
def validDate (y m d : Nat) : Bool :=
  1 ≤ y && 1 ≤ m && m ≤ 12 && 1 ≤ d && d ≤ daysInMonth y m

/-- Numeric value of a digit list (the list is assumed checked). -/
def digitsToNat (l : List Char) : Nat :=
  l.foldl (fun n c => n * 10 + (c.toNat - '0'.toNat)) 0

/-- All characters are decimal digits (and the list is non-empty), the
shape `strptime`'s numeric directives accept. -/
def allDigits (l : List Char) : Bool :=
  !l.isEmpty && l.all (·.isDigit)

/-- The `%Y` directive: CPython's regex is exactly four digits
(`\d\d\d\d`), so one-to-three-digit years are rejected. -/
def parse_anio : List Char → Option Nat
  | [c1, c2, c3, c4] =>
    if allDigits [c1, c2, c3, c4] then some (digitsToNat [c1, c2, c3, c4]) else none
  | _ => none

/-- The `%m` directive: one or two digits (zero padding optional, no
space padding); out-of-range values fail at `datetime` construction,
matching the regex's `1[0-2]|0[1-9]|[1-9]` alternatives followed by the
literal separator. -/
def parse_mes (l : List Char) : Option Nat :=
  if allDigits l && l.length ≤ 2 then some (digitsToNat l) else none

/-- The `%d` directive: one or two digits, or CPython's space-padded
single digit (the `\x20[1-9]` alternative of its day regex); out-of-range
values fail at `datetime` construction. -/
def parse_dia : List Char → Option Nat
  | [c1] => if allDigits [c1] then some (digitsToNat [c1]) else none
  | [c1, c2] =>
    if allDigits [c1, c2] then some (digitsToNat [c1, c2])
    else if c1 = ' ' && '1' ≤ c2 && c2 ≤ '9' then some (digitsToNat [c2])
    else none
  | _ => none

/-- Model of `datetime.strptime(s, "%Y-%m-%d")`: a four-digit year, a
one-or-two-digit month and a one-or-two-digit (or space-padded
single-digit) day, dash-separated, validated as a calendar date; the
whole string must be consumed. -/
def strptime_Ymd (s : String) : Option PyDateTime :=
  match splitOnChar '-' s.data with
  | [ys, ms, ds] =>
    match parse_anio ys, parse_mes ms, parse_dia ds with
    | some y, some m, some d =>
      if validDate y m d then some ⟨y, m, d, 0, 0, 0⟩ else none
    | _, _, _ => none
  | _ => none

/-- A `HH`, `HH:MM` or `HH:MM:SS` time suffix of an ISO string
(fractional seconds and UTC offsets are outside the modelled scope). -/
def parseIsoTime (l : List Char) : Option (Nat × Nat × Nat) :=
  match l with
  | [h1, h2] =>
    if allDigits [h1, h2] && digitsToNat [h1, h2] < 24 then
      some (digitsToNat [h1, h2], 0, 0)
    else none
  | [h1, h2, c1, m1, m2] =>
    if c1 = ':' && allDigits [h1, h2] && digitsToNat [h1, h2] < 24 &&
        allDigits [m1, m2] && digitsToNat [m1, m2] < 60 then
      some (digitsToNat [h1, h2], digitsToNat [m1, m2], 0)
    else none
  | [h1, h2, c1, m1, m2, c2, s1, s2] =>
    if c1 = ':' && c2 = ':' && allDigits [h1, h2] && digitsToNat [h1, h2] < 24 &&
        allDigits [m1, m2] && digitsToNat [m1, m2] < 60 &&
        allDigits [s1, s2] && digitsToNat [s1, s2] < 60 then
      some (digitsToNat [h1, h2], digitsToNat [m1, m2], digitsToNat [s1, s2])
    else none
  | _ => none

/-- Model of `datetime.fromisoformat`: a strict zero-padded
`YYYY-MM-DD`, optionally followed by one separator character and a time. -/
def fromisoformat (s : String) : Option PyDateTime :=
  match s.data with
  | y1 :: y2 :: y3 :: y4 :: c1 :: m1 :: m2 :: c2 :: d1 :: d2 :: rest =>
    if c1 = '-' && c2 = '-' && allDigits [y1, y2, y3, y4] &&
        allDigits [m1, m2] && allDigits [d1, d2] then
      let y := digitsToNat [y1, y2, y3, y4]
      let m := digitsToNat [m1, m2]
      let d := digitsToNat [d1, d2]
      if validDate y m d then
        match rest with
        | [] => some ⟨y, m, d, 0, 0, 0⟩
        | _ :: timeChars =>
          match parseIsoTime timeChars with
          | some (h, mi, se) => some ⟨y, m, d, h, mi, se⟩
          | none => none
      else none
    else none
  | _ => none

/-- `DatabaseService.parse_date` (db_service.py, lines 21-49): `None` or
the empty string yield no value; else try `%Y-%m-%d`; else truncate at the
first `'T'` and try `%Y-%m-%d` on the prefix; else try `fromisoformat`;
every failure yields no value instead of raising. -/
def parse_date : Option String → Option PyDateTime
  | none => none
  | some s =>
    if s.data.isEmpty then none
    else
      match strptime_Ymd s with
      | some d => some d
      | none =>
        match strptime_Ymd ⟨(splitOnChar 'T' s.data).headD []⟩ with
        | some d => some d
        | none => fromisoformat s

/-! ## Relational store rows (app/models/database.py)

Each ORM model becomes a structure; nullable columns become `Option`
fields, the autoincrement primary key becomes an explicit `id : Nat`
drawn from a per-table counter in the `DB` state. The `JSON` columns
`demandantes`/`demandados` hold the serialized text the service writes
into them. -/

structure Empresa where
  id : Nat
  nombre : Option String
  tipo_persona : String
  nit : Option String
  fecha_creacion : PyDateTime
deriving DecidableEq, Repr

structure Proceso where
  id : Nat
  id_proceso_api : Option String
  llave_proceso : Option String
  fecha_proceso : Option PyDateTime
  fecha_ultima_actuacion : Option PyDateTime
  despacho : Option String
  departamento : Option String
  sujetos_procesales : Option String
  clase_proceso : Option String
  tipo_proceso : Option String
  subtipo_proceso : Option String
  ubicacion_expediente : Option String
  es_privado : Bool
  demandantes : Option String
  demandados : Option String
  resumen_generado : Option String
  fecha_consulta : PyDateTime
  empresa_id : Option Nat
deriving DecidableEq, Repr

structure Actuacion where
  id : Nat
  id_reg_actuacion : Option String
  cons_actuacion : Option Nat
  fecha_actuacion : Option PyDateTime
  actuacion : Option String
  anotacion : Option String
  fecha_inicial : Option PyDateTime
  fecha_final : Option PyDateTime
  fecha_registro : Option PyDateTime
  con_documentos : Bool
  proceso_id : Nat
  nivel_urgencia : Option String
  tipo_actuacion : Option String
  requiere_accion : Bool
  justificacion : Option String
deriving DecidableEq, Repr

/-- The relational store: the session is created with `autoflush=False`,
so queries issued during one service call see the state the call started
from, and `db.add`-ed rows become visible at `db.commit()`. -/
structure DB where
  empresas : List Empresa
  procesos : List Proceso
  actuaciones : List Actuacion
  next_empresa_id : Nat
  next_proceso_id : Nat
  next_actuacion_id : Nat
deriving DecidableEq, Repr

/-! ## Registry payloads (dictionaries)

Dictionary payloads become structures of optional fields: `none` models a
key the registry did not send (`dict.get` then yields Python `None`). -/

structure DatosProceso where
  idProceso : Option String
  llaveProceso : Option String
  fechaProceso : Option String
  fechaUltimaActuacion : Option String
  despacho : Option String
  departamento : Option String
  sujetosProcesales : Option String
deriving DecidableEq, Repr

structure DatosEmpresa where
  nombre : Option String
  tipo_persona : Option String
  nit : Option String
deriving DecidableEq, Repr

structure DetalleProceso where
  claseProceso : Option String
  tipoProceso : Option String
  subTipoProceso : Option String
  ubicacionExpediente : Option String
  esPrivado : Option Bool
  demandantes : Option (List String)
  demandados : Option (List String)
deriving DecidableEq, Repr

structure DatosActuacion where
  idRegActuacion : Option String
  consActuacion : Option Nat
  fechaActuacion : Option String
  actuacion : Option String
  anotacion : Option String
  fechaInicial : Option String
  fechaFinal : Option String
  fechaRegistro : Option String
  conDocumentos : Option Bool
deriving DecidableEq, Repr

structure DatosClasificacion where
  nivel_urgencia : Option String
  tipo_actuacion : Option String
  requiere_accion : Option Bool
  justificacion : Option String
deriving DecidableEq, Repr

/-- `json.dumps` on a list of strings (escaping of special characters is
outside the modelled scope). -/
def json_dumps_list (l : List String) : String :=
  "[" ++ String.intercalate ", " (l.map (fun s => "\x22" ++ s ++ "\x22")) ++ "]"

/-! ## DatabaseService (app/services/db_service.py) -/

/-- `DatabaseService.guardar_empresa` (lines 315-357): match by `nit`
when truthy, else by exact name (backfilling a missing `nit`), else
create. -/
def empresa_nueva (db : DB) (now : PyDateTime) (de : DatosEmpresa) : Empresa :=
  { id := db.next_empresa_id
    nombre := de.nombre
    tipo_persona := de.tipo_persona.getD "jur"
    nit := de.nit
    fecha_creacion := now }

def guardar_empresa (db : DB) (now : PyDateTime) (de : DatosEmpresa) : DB × Empresa :=
  match if truthyStr de.nit then db.empresas.find? (fun e => e.nit == de.nit) else none with
  | some e => (db, e)
  | none =>
    match db.empresas.find? (fun e => e.nombre == de.nombre) with
    | some e =>
      if truthyStr de.nit && !truthyStr e.nit then
        ({ db with
            empresas := db.empresas.map
              (fun x => if x.id = e.id then { e with nit := de.nit } else x) },
          { e with nit := de.nit })
      else (db, e)
    | none =>
      ({ db with
          empresas := db.empresas ++ [empresa_nueva db now de]
          next_empresa_id := db.next_empresa_id + 1 }, empresa_nueva db now de)

/-- The store state after `guardar_proceso` has processed the optional
company payload on its insert path (db_service.py lines 87-90). -/
def empresa_db (db : DB) (now : PyDateTime) : Option DatosEmpresa → DB
  | some d => (guardar_empresa db now d).1
  | none => db

/-- The company link `guardar_proceso` puts on a newly inserted row. -/
def empresa_link (db : DB) (now : PyDateTime) : Option DatosEmpresa → Option Nat
  | some d => some (guardar_empresa db now d).2.id
  | none => none

/-- The row `guardar_proceso` inserts for an unseen `idProceso`
(db_service.py lines 92-103): the fetched fields, the freshly parsed
dates, the resolved company link; every other column keeps its column
default. -/
def proceso_nuevo (db : DB) (now : PyDateTime) (dp : DatosProceso)
    (de : Option DatosEmpresa) : Proceso :=
  { id := (empresa_db db now de).next_proceso_id
    id_proceso_api := dp.idProceso
    llave_proceso := dp.llaveProceso
    fecha_proceso := parse_date dp.fechaProceso
    fecha_ultima_actuacion := parse_date dp.fechaUltimaActuacion
    despacho := dp.despacho
    departamento := dp.departamento
    sujetos_procesales := dp.sujetosProcesales
    clase_proceso := none
    tipo_proceso := none
    subtipo_proceso := none
    ubicacion_expediente := none
    es_privado := false
    demandantes := none
    demandados := none
    resumen_generado := none
    fecha_consulta := now
    empresa_id := empresa_link db now de }

/-- The in-place update `guardar_proceso` applies to an existing row
(db_service.py lines 69-81): `fecha_ultima_actuacion` is replaced only
when the re-parse produced a value (a parsed `datetime` is always
truthy), `fecha_consulta` is refreshed, nothing else is touched. -/
def proceso_actualizado (p : Proceso) (now : PyDateTime) (dp : DatosProceso) : Proceso :=
  { p with
      fecha_ultima_actuacion :=
        match parse_date dp.fechaUltimaActuacion with
        | some d => some d
        | none => p.fecha_ultima_actuacion
      fecha_consulta := now }

/-- `DatabaseService.guardar_proceso` (lines 51-108). If a row with the
payload's `idProceso` exists, apply `proceso_actualizado` to it;
otherwise resolve the optional company and insert `proceso_nuevo`. -/
def guardar_proceso (db : DB) (now : PyDateTime) (dp : DatosProceso)
    (de : Option DatosEmpresa) : DB × Proceso :=
  match db.procesos.find? (fun p => p.id_proceso_api == dp.idProceso) with
  | some p =>
    let p' := proceso_actualizado p now dp
    ({ db with procesos := db.procesos.map (fun q => if q.id = p.id then p' else q) }, p')
  | none =>
    let db1 := empresa_db db now de
    let nuevo := proceso_nuevo db now dp de
    ({ db1 with
        procesos := db1.procesos ++ [nuevo]
        next_proceso_id := db1.next_proceso_id + 1 }, nuevo)

/-- Number of stored Process rows carrying a given external identifier. -/
def procesos_con_id (db : DB) (pid : String) : Nat :=
  (db.procesos.filter (fun p => p.id_proceso_api == some pid)).length

/-- The field overwrites `guardar_detalle_proceso` applies to an
existing row (db_service.py lines 130-142): class, type, subtype,
location and privacy flag are assigned unconditionally from the detail
record; `demandantes`/`demandados` are re-serialized only when the
respective key is present. -/
def proceso_detallado (p : Proceso) (detalle : DetalleProceso) : Proceso :=
  { p with
      clase_proceso := detalle.claseProceso
      tipo_proceso := detalle.tipoProceso
      subtipo_proceso := detalle.subTipoProceso
      ubicacion_expediente := detalle.ubicacionExpediente
      es_privado := detalle.esPrivado.getD false
      demandantes :=
        match detalle.demandantes with
        | some l => some (json_dumps_list l)
        | none => p.demandantes
      demandados :=
        match detalle.demandados with
        | some l => some (json_dumps_list l)
        | none => p.demandados }

def guardar_detalle_proceso (db : DB) (id_proceso_api : String)
    (detalle : DetalleProceso) : DB × Option Proceso :=
  match db.procesos.find? (fun p => p.id_proceso_api == some id_proceso_api) with
  | none => (db, none)
  | some p =>
    ({ db with
        procesos := db.procesos.map
          (fun q => if q.id = p.id then proceso_detallado p detalle else q) },
      some (proceso_detallado p detalle))

/-- The row `guardar_actuaciones` builds for a fetched action record that
is not in the store yet (db_service.py lines 208-219): all fetched
fields, the owning process's surrogate id, and column defaults for the
classification fields. -/
def mkActuacion (rowId procId : Nat) (a : DatosActuacion) : Actuacion :=
  { id := rowId
    id_reg_actuacion := a.idRegActuacion
    cons_actuacion := a.consActuacion
    fecha_actuacion := parse_date a.fechaActuacion
    actuacion := a.actuacion
    anotacion := a.anotacion
    fecha_inicial := parse_date a.fechaInicial
    fecha_final := parse_date a.fechaFinal
    fecha_registro := parse_date a.fechaRegistro
    con_documentos := a.conDocumentos.getD false
    proceso_id := procId
    nivel_urgencia := none
    tipo_actuacion := none
    requiere_accion := false
    justificacion := none }

/-- The rows the `guardar_actuaciones` loop `db.add`s: one per input
record whose `idRegActuacion` is not found in the call-start snapshot
(the session has `autoflush=False`, so the per-record query does not see
rows added earlier in the same call). -/
def actuaciones_nuevas (snap : List Actuacion) (procId nextId : Nat) :
    List DatosActuacion → List Actuacion
  | [] => []
  | a :: rest =>
    match snap.find? (fun x => x.id_reg_actuacion == a.idRegActuacion) with
    | some _ => actuaciones_nuevas snap procId nextId rest
    | none => mkActuacion nextId procId a :: actuaciones_nuevas snap procId (nextId + 1) rest

/-- The list `guardar_actuaciones` returns: per input record, the
snapshot row when its `idRegActuacion` is found, else the newly built
row, in input order. -/
def actuaciones_guardadas (snap : List Actuacion) (procId nextId : Nat) :
    List DatosActuacion → List Actuacion
  | [] => []
  | a :: rest =>
    match snap.find? (fun x => x.id_reg_actuacion == a.idRegActuacion) with
    | some ex => ex :: actuaciones_guardadas snap procId nextId rest
    | none => mkActuacion nextId procId a :: actuaciones_guardadas snap procId (nextId + 1) rest

/-- `DatabaseService.guardar_actuaciones` (lines 175-230): requires an
existing process (else returns the empty list and changes nothing); adds
the records whose `idRegActuacion` is absent and returns the resulting
pre-existing-or-new row per input record, in input order. -/
def guardar_actuaciones (db : DB) (id_proceso_api : String)
    (actuaciones : List DatosActuacion) : DB × List Actuacion :=
  match db.procesos.find? (fun p => p.id_proceso_api == some id_proceso_api) with
  | none => (db, [])
  | some proc =>
    let nuevos := actuaciones_nuevas db.actuaciones proc.id db.next_actuacion_id actuaciones
    ({ db with
        actuaciones := db.actuaciones ++ nuevos
        next_actuacion_id := db.next_actuacion_id + nuevos.length },
      actuaciones_guardadas db.actuaciones proc.id db.next_actuacion_id actuaciones)

/-- `DatabaseService.guardar_clasificacion_actuacion` (lines 232-260):
requires an existing action (else returns `None` and changes nothing);
overwrites the four classification columns. -/
def guardar_clasificacion_actuacion (db : DB) (id_reg_actuacion : String)
    (clasificacion : DatosClasificacion) : DB × Option Actuacion :=
  match db.actuaciones.find? (fun a => a.id_reg_actuacion == some id_reg_actuacion) with
  | none => (db, none)
  | some a =>
    let a' : Actuacion :=
      { a with
          nivel_urgencia := clasificacion.nivel_urgencia
          tipo_actuacion := clasificacion.tipo_actuacion
          requiere_accion := clasificacion.requiere_accion.getD false
          justificacion := clasificacion.justificacion }
    ({ db with actuaciones := db.actuaciones.map (fun x => if x.id = a.id then a' else x) },
      some a')

/-! ## AIGenerativeService (app/services/ai_service.py) -/

/-- A Python string-or-`None` value, to distinguish a dictionary key that
is present with value `None` from an absent key. -/
inductive PyStr where
  | pynone : PyStr
  | pystr : String → PyStr
deriving DecidableEq, Repr

/-- `d.get(key, default)` for a key whose value, when present, is a
string or `None`. -/
def dictGet (v : Option PyStr) (dflt : String) : PyStr :=
  v.getD (PyStr.pystr dflt)

/-- The dictionary of one fetched action, as `clasificar_actuacion`
reads it. -/
structure ActuacionDict where
  actuacion : Option PyStr
  anotacion : Option PyStr
  fechaActuacion : Option PyStr
deriving DecidableEq, Repr

/-- The only exception the modelled code can raise: `None.lower()`. -/
inductive PyErr where
  | attributeError : PyErr
deriving DecidableEq, Repr

/-- The classification dictionaries the service produces. The fields are
optional because a reply parsed from the language model may omit keys;
the rule-based results always carry all four. -/
structure Clasificacion where
  nivel_urgencia : Option String
  tipo_actuacion : Option String
  requiere_accion : Option Bool
  justificacion : Option String
deriving DecidableEq, Repr

def clasificacion_fallback : Clasificacion :=
  { nivel_urgencia := some "Normal"
    tipo_actuacion := some "No clasificada"
    requiere_accion := some false
    justificacion := some "No se pudo determinar automáticamente." }

def palabras_audiencia : List String := ["audiencia", "citación", "comparecencia"]
def palabras_requerimiento : List String := ["requerimiento", "solicitud", "plazo"]
def palabras_notificacion : List String := ["notificación", "aviso", "comunicación"]

/-- `AIGenerativeService._clasificar_actuacion_simulada` (ai_service.py,
lines 224-256): lowercase the label obtained by
`actuacion.get('actuacion', '')` — which raises `AttributeError` when the
key is present with value `None` — then first-match-wins keyword rules. -/
def clasificar_actuacion_simulada (act : ActuacionDict) : Except PyErr Clasificacion :=
  match dictGet act.actuacion "" with
  | .pynone => .error .attributeError
  | .pystr s =>
    let texto := pyLower s
    if palabras_audiencia.any (fun palabra => containsSub palabra texto) then
      .ok { nivel_urgencia := some "Urgente"
            tipo_actuacion := some "Audiencia"
            requiere_accion := some true
            justificacion := some "Las audiencias requieren preparación y asistencia obligatoria." }
    else if palabras_requerimiento.any (fun palabra => containsSub palabra texto) then
      .ok { nivel_urgencia := some "Alta"
            tipo_actuacion := some "Requerimiento"
            requiere_accion := some true
            justificacion := some "Existe un plazo definido para responder al requerimiento." }
    else if palabras_notificacion.any (fun palabra => containsSub palabra texto) then
      .ok { nivel_urgencia := some "Normal"
            tipo_actuacion := some "Notificación"
            requiere_accion := some false
            justificacion := some "Es una notificación informativa que no requiere acción inmediata." }
    else
      .ok { nivel_urgencia := some "Baja"
            tipo_actuacion := some "Trámite"
            requiere_accion := some false
            justificacion := some "Actuación de trámite regular sin plazos críticos asociados." }

/-- The observable behaviour of the external collaborators of the
model-backed path: the chat model's reply (`none` models
`chat_model.invoke` raising) and `json.loads` on the brace-delimited
slice (`none` models `json.JSONDecodeError`; a successful parse of a
string that starts with a brace is a dictionary, restricted here to the
four classification keys). -/
structure ModelOracle where
  invoke : Option String
  jloads : String → Option Clasificacion

def openBrace : Char := Char.ofNat 123
def closeBrace : Char := Char.ofNat 125

/-- `s.find(c)` (first index, or `none` for Python's `-1`). -/
def pyFind (c : Char) (s : String) : Option Nat :=
  s.data.findIdx? (· = c)

/-- `s.rfind(c)` (last index, or `none` for Python's `-1`). -/
def pyRfind (c : Char) (s : String) : Option Nat :=
  match s.data.reverse.findIdx? (· = c) with
  | none => none
  | some k => some (s.data.length - 1 - k)

/-- `AIGenerativeService.clasificar_actuacion` (ai_service.py, lines
120-207). The service constructor hardcodes `use_simulation = True`, so
the deployed behaviour is the keyword strategy; the model-backed branch
extracts the first-to-last brace slice of the reply, parses it, and maps
every failure (invoke raising, no brace pair, JSON decode error) to the
fallback classification. -/
def clasificar_actuacion (use_simulation : Bool) (oracle : ModelOracle)
    (act : ActuacionDict) : Except PyErr Clasificacion :=
  if use_simulation then clasificar_actuacion_simulada act
  else
    match oracle.invoke with
    | none => .ok clasificacion_fallback
    | some texto =>
      match pyFind openBrace texto, pyRfind closeBrace texto with
      | some json_start, some jend =>
        if json_start < jend + 1 then
          match oracle.jloads ⟨(texto.data.drop json_start).take (jend + 1 - json_start)⟩ with
          | some c => .ok c
          | none => .ok clasificacion_fallback
        else .ok clasificacion_fallback
      | _, _ => .ok clasificacion_fallback

/-- The `use_simulation` flag set in `AIGenerativeService.__init__`
(ai_service.py, line 34). -/
def use_simulation_default : Bool := true

/-- The process-detail dictionary as `_generar_resumen_simulado` reads
it. -/
structure DetalleResumen where
  llaveProceso : Option String
  despacho : Option String
  demandantes : Option (List String)
  demandados : Option (List String)
deriving DecidableEq, Repr

/-- `AIGenerativeService._generar_resumen_simulado` (ai_service.py,
lines 209-222): a fixed three-paragraph f-string template interpolating
registration key, office and the comma-joined party name lists, with
absent keys defaulting to "No especificado". The `actuaciones` argument
is accepted but never read. The `.strip()` of the f-string's leading and
trailing newline-plus-indent is pre-applied; the interior 8-space
indentation of the second and third paragraphs survives `.strip()` and is
kept. -/
def generar_resumen_simulado (detalle_proceso : DetalleResumen)
    (actuaciones : List ActuacionDict) : String :=
  let _ := actuaciones
  let radicado := detalle_proceso.llaveProceso.getD "No especificado"
  let despacho := detalle_proceso.despacho.getD "No especificado"
  let demandantes := String.intercalate ", " (detalle_proceso.demandantes.getD ["No especificado"])
  let demandados := String.intercalate ", " (detalle_proceso.demandados.getD ["No especificado"])
  "El proceso judicial con radicado " ++ radicado ++
  " se encuentra actualmente en curso en el despacho " ++ despacho ++
  ". Este proceso involucra a " ++ demandantes ++ " como parte demandante y a " ++
  demandados ++ " como parte demandada.\n\n        " ++
  "Según las actuaciones recientes, el proceso ha tenido avances significativos en los últimos meses. " ++
  "Se han registrado notificaciones importantes y se han cumplido los términos procesales establecidos. " ++
  "Las actuaciones más recientes sugieren que el proceso está siguiendo su curso normal dentro de los tiempos esperados para este tipo de casos.\n\n        " ++
  "Es importante prestar atención a las próximas fechas de audiencia y a los requerimientos pendientes, ya que podrían ser determinantes para el desarrollo del proceso. " ++
  "Se recomienda mantener un seguimiento constante de las actuaciones futuras para asegurar el cumplimiento de todos los términos legales y evitar contratiempos procesales."

/-! ## JudicialAPIClient (app/api/judicial_api.py) -/

/-- What the external registry HTTP exchange produced, as observed by
`_make_request`: a 2xx JSON body, a non-2xx response (the text of the
`HTTPError` plus the optional `Message` field of the JSON error body),
or a transport failure. -/
inductive UpstreamResult where
  | success : String → UpstreamResult
  | httpError : String → Option String → UpstreamResult
  | transportError : String → UpstreamResult
deriving DecidableEq, Repr

/-- `JudicialAPIClient._make_request` (judicial_api.py, lines 29-62):
non-2xx and transport failures become one exception whose text carries
the upstream `Message` when the error body had one. -/
def make_request (r : UpstreamResult) : Except String String :=
  match r with
  | .success body => .ok body
  | .httpError errText msg =>
    let error_msg :=
      match msg with
      | some m => errText ++ " - " ++ m
      | none => errText
    .error ("Error en la consulta a la API: " ++ error_msg)
  | .transportError errText => .error ("Error en la consulta a la API: " ++ errText)

/-- The upstream over-broad-query phrase matched in
`consultar_por_razon_social` (judicial_api.py, line 97). -/
def frase_mil_registros : String :=
  "Hay más de mil registros con los criterios especificados"

/-- The distinguished error text raised for an over-broad query
(judicial_api.py, line 99). -/
def msg_consulta_general : String :=
  "La consulta es demasiado general. Por favor, especifique un código de despacho o un nombre más específico."

/-- `JudicialAPIClient.consultar_por_razon_social` (judicial_api.py,
lines 64-100): on failure, re-raise as the distinguished over-broad-query
error exactly when the exception text contains the registry's
more-than-one-thousand-records phrase; the query parameters do not
affect the error handling. -/
def consultar_por_razon_social (_nombre _tipo_persona : String)
    (_solo_activos : Bool) (_codificacion_despacho : String) (_pagina : Nat)
    (r : UpstreamResult) : Except String String :=
  match make_request r with
  | .ok body => .ok body
  | .error e =>
    if containsSub frase_mil_registros e then .error msg_consulta_general
    else .error e

/-! ## Concrete fixtures for witnesses and counterexamples -/

def fecha0 : PyDateTime := ⟨2024, 1, 1, 0, 0, 0⟩

/-- An empty store as created by `crear_tablas` (surrogate counters at
SQLite's first autoincrement value). -/
def db_vacia : DB := ⟨[], [], [], 1, 1, 1⟩

/-- A store holding one process with external identifier `"P1"` and
previously stored party-name lists. -/
def proceso_p1 : Proceso :=
  { id := 1
    id_proceso_api := some "P1"
    llave_proceso := some "LLP1"
    fecha_proceso := none
    fecha_ultima_actuacion := some fecha0
    despacho := some "Juzgado 1"
    departamento := none
    sujetos_procesales := none
    clase_proceso := some "ClaseVieja"
    tipo_proceso := none
    subtipo_proceso := none
    ubicacion_expediente := none
    es_privado := false
    demandantes := some "[\x22OldCo\x22]"
    demandados := some "[\x22OldDef\x22]"
    resumen_generado := none
    fecha_consulta := fecha0
    empresa_id := none }

def db_p1 : DB := ⟨[], [proceso_p1], [], 1, 2, 1⟩

/-- A detail record that carries no party-name lists. -/
def detalle_sin_partes : DetalleProceso :=
  ⟨none, some "TipoNuevo", none, none, none, none, none⟩

/-- A detail record carrying both party-name lists. -/
def detalle_con_partes : DetalleProceso :=
  ⟨some "ClaseN", some "TipoN", none, some "Archivo", some true, some ["NewCo"], some ["NewDef"]⟩

/-- Two fetched action records with distinct identifiers. -/
def act_a1 : DatosActuacion :=
  ⟨some "A1", some 1, some "2024-01-02", some "Auto admisorio", some "Nota 1",
    none, none, some "2024-01-02", some true⟩

def act_a2 : DatosActuacion :=
  ⟨some "A2", some 2, some "2024-01-03", some "Fija audiencia", none,
    none, none, none, none⟩

/-- A process payload for `"P1"` whose `fechaUltimaActuacion` does not
parse. -/
def datos_p1_mala_fecha : DatosProceso :=
  ⟨some "P1", some "LLX", none, some "not-a-date", some "Despacho X", none, none⟩

/-- A company hint payload. -/
def datos_empresa_acme : DatosEmpresa := ⟨some "ACME S.A.", some "jur", some "900123456"⟩

/-- Two payloads for process `"P2"` that differ in every non-key field. -/
def datos_p2_a : DatosProceso :=
  ⟨some "P2", some "LL-A", some "2024-01-05", some "2024-02-01", some "Despacho A",
    some "Depto A", some "Partes A"⟩

def datos_p2_b : DatosProceso :=
  ⟨some "P2", some "LL-B", some "2024-01-06", some "2024-03-02", some "Despacho B",
    some "Depto B", some "Partes B"⟩

/-! ## Helper lemmas -/

theorem splitOnChar_ne_nil (c : Char) (l : List Char) : splitOnChar c l ≠ [] := by
  cases l with
  | nil => simp [splitOnChar]
  | cons x xs =>
    by_cases hx : x = c
    · simp [splitOnChar, hx]
    · simp only [splitOnChar, if_neg hx]
      cases splitOnChar c xs <;> simp

theorem find?_append_of_none {α : Type} {p : α → Bool} {l₁ l₂ : List α}
    (h : ∀ a ∈ l₁, p a = false) : (l₁ ++ l₂).find? p = l₂.find? p := by
  induction l₁ with
  | nil => simp
  | cons x xs ih =>
    have hx := h x (List.mem_cons_self x xs)
    simp only [List.cons_append, List.find?_cons, hx]
    exact ih (fun a ha => h a (List.mem_cons_of_mem x ha))

theorem map_eq_self_of {α : Type} {l : List α} {f : α → α}
    (h : ∀ a ∈ l, f a = a) : l.map f = l := by
  induction l with
  | nil => rfl
  | cons x xs ih =>
    simp only [List.map_cons, h x (List.mem_cons_self x xs)]
    rw [ih (fun a ha => h a (List.mem_cons_of_mem x ha))]

theorem guardar_empresa_procesos (db : DB) (now : PyDateTime) (de : DatosEmpresa) :
    (guardar_empresa db now de).1.procesos = db.procesos := by
  unfold guardar_empresa
  repeat' split
  all_goals rfl

theorem guardar_empresa_next_proceso_id (db : DB) (now : PyDateTime) (de : DatosEmpresa) :
    (guardar_empresa db now de).1.next_proceso_id = db.next_proceso_id := by
  unfold guardar_empresa
  repeat' split
  all_goals rfl

theorem empresa_db_procesos (db : DB) (now : PyDateTime) (de : Option DatosEmpresa) :
    (empresa_db db now de).procesos = db.procesos := by
  cases de with
  | none => rfl
  | some d => exact guardar_empresa_procesos db now d

theorem empresa_db_next_proceso_id (db : DB) (now : PyDateTime) (de : Option DatosEmpresa) :
    (empresa_db db now de).next_proceso_id = db.next_proceso_id := by
  cases de with
  | none => rfl
  | some d => exact guardar_empresa_next_proceso_id db now d

/-- When the label read by `dict.get('actuacion', '')` is a string (not
`None`), the keyword classifier reduces to its first-match-wins if
chain over the lowercased label. -/
theorem clasificar_simulada_eq (act : ActuacionDict) (s : String)
    (hlab : dictGet act.actuacion "" = PyStr.pystr s) :
    clasificar_actuacion_simulada act =
      (if palabras_audiencia.any (fun palabra => containsSub palabra (pyLower s)) then
        .ok { nivel_urgencia := some "Urgente"
              tipo_actuacion := some "Audiencia"
              requiere_accion := some true
              justificacion := some "Las audiencias requieren preparación y asistencia obligatoria." }
      else if palabras_requerimiento.any (fun palabra => containsSub palabra (pyLower s)) then
        .ok { nivel_urgencia := some "Alta"
              tipo_actuacion := some "Requerimiento"
              requiere_accion := some true
              justificacion := some "Existe un plazo definido para responder al requerimiento." }
      else if palabras_notificacion.any (fun palabra => containsSub palabra (pyLower s)) then
        .ok { nivel_urgencia := some "Normal"
              tipo_actuacion := some "Notificación"
              requiere_accion := some false
              justificacion := some "Es una notificación informativa que no requiere acción inmediata." }
      else
        .ok { nivel_urgencia := some "Baja"
              tipo_actuacion := some "Trámite"
              requiere_accion := some false
              justificacion := some "Actuación de trámite regular sin plazos críticos asociados." }) := by
  unfold clasificar_actuacion_simulada
  rw [hlab]

/-- With the simulation flag off, `clasificar_actuacion` is the
model-backed extraction pipeline. -/
theorem clasificar_actuacion_nonsim (oracle : ModelOracle) (act : ActuacionDict) :
    clasificar_actuacion false oracle act =
      match oracle.invoke with
      | none => .ok clasificacion_fallback
      | some texto =>
        match pyFind openBrace texto, pyRfind closeBrace texto with
        | some json_start, some jend =>
          if json_start < jend + 1 then
            match oracle.jloads ⟨(texto.data.drop json_start).take (jend + 1 - json_start)⟩ with
            | some c => .ok c
            | none => .ok clasificacion_fallback
          else .ok clasificacion_fallback
        | _, _ => .ok clasificacion_fallback := rfl

/-- `guardar_proceso` on an already-stored `idProceso` replaces the
found row in place and returns it. -/
theorem guardar_proceso_update (db : DB) (now : PyDateTime) (dp : DatosProceso)
    (de : Option DatosEmpresa) (p : Proceso)
    (hfind : db.procesos.find? (fun q => q.id_proceso_api == dp.idProceso) = some p) :
    guardar_proceso db now dp de =
      ({ db with
          procesos := db.procesos.map
            (fun q => if q.id = p.id then proceso_actualizado p now dp else q) },
        proceso_actualizado p now dp) := by
  unfold guardar_proceso
  rw [hfind]

/-- `guardar_proceso` on an unseen `idProceso` appends the new row
after the company resolution. -/
theorem guardar_proceso_insert (db : DB) (now : PyDateTime) (dp : DatosProceso)
    (de : Option DatosEmpresa)
    (hfind : db.procesos.find? (fun q => q.id_proceso_api == dp.idProceso) = none) :
    guardar_proceso db now dp de =
      ({ empresa_db db now de with
          procesos := (empresa_db db now de).procesos ++ [proceso_nuevo db now dp de]
          next_proceso_id := (empresa_db db now de).next_proceso_id + 1 },
        proceso_nuevo db now dp de) := by
  unfold guardar_proceso
  rw [hfind]

/-- `guardar_actuaciones` on a stored process id appends the unseen
records and returns the per-record rows. -/
theorem guardar_actuaciones_found (db : DB) (idp : String)
    (acts : List DatosActuacion) (proc : Proceso)
    (hfind : db.procesos.find? (fun p => p.id_proceso_api == some idp) = some proc) :
    guardar_actuaciones db idp acts =
      ({ db with
          actuaciones := db.actuaciones ++
            actuaciones_nuevas db.actuaciones proc.id db.next_actuacion_id acts
          next_actuacion_id := db.next_actuacion_id +
            (actuaciones_nuevas db.actuaciones proc.id db.next_actuacion_id acts).length },
        actuaciones_guardadas db.actuaciones proc.id db.next_actuacion_id acts) := by
  unfold guardar_actuaciones
  rw [hfind]

theorem guardar_actuaciones_procesos (db : DB) (idp : String)
    (acts : List DatosActuacion) :
    (guardar_actuaciones db idp acts).1.procesos = db.procesos := by
  unfold guardar_actuaciones
  split <;> rfl

theorem guardar_actuaciones_fst_actuaciones (db : DB) (idp : String)
    (acts : List DatosActuacion) (proc : Proceso)
    (hfind : db.procesos.find? (fun p => p.id_proceso_api == some idp) = some proc) :
    (guardar_actuaciones db idp acts).1.actuaciones =
      db.actuaciones ++ actuaciones_nuevas db.actuaciones proc.id db.next_actuacion_id acts := by
  rw [guardar_actuaciones_found db idp acts proc hfind]

theorem guardar_actuaciones_fst_next (db : DB) (idp : String)
    (acts : List DatosActuacion) (proc : Proceso)
    (hfind : db.procesos.find? (fun p => p.id_proceso_api == some idp) = some proc) :
    (guardar_actuaciones db idp acts).1.next_actuacion_id =
      db.next_actuacion_id +
        (actuaciones_nuevas db.actuaciones proc.id db.next_actuacion_id acts).length := by
  rw [guardar_actuaciones_found db idp acts proc hfind]

/-- The returned rows carry the input records' external identifiers, in
input order. -/
theorem actuaciones_guardadas_ids (snap : List Actuacion) (procId : Nat)
    (acts : List DatosActuacion) : ∀ nextId,
    (actuaciones_guardadas snap procId nextId acts).map (·.id_reg_actuacion) =
      acts.map (·.idRegActuacion) := by
  induction acts with
  | nil => intro n; rfl
  | cons a rest ih =>
    intro n
    unfold actuaciones_guardadas
    cases hf : snap.find? (fun x => x.id_reg_actuacion == a.idRegActuacion) with
    | some ex =>
      have hex : ex.id_reg_actuacion = a.idRegActuacion := by
        have h := List.find?_some hf
        simpa [beq_iff_eq] using h
      simp only [List.map_cons, hex, ih n]
    | none =>
      simp only [List.map_cons, ih (n + 1), mkActuacion]

theorem guardar_actuaciones_snd_ids (db : DB) (idp : String)
    (acts : List DatosActuacion) (proc : Proceso)
    (hfind : db.procesos.find? (fun p => p.id_proceso_api == some idp) = some proc) :
    (guardar_actuaciones db idp acts).2.map (·.id_reg_actuacion) =
      acts.map (·.idRegActuacion) := by
  rw [guardar_actuaciones_found db idp acts proc hfind]
  exact actuaciones_guardadas_ids db.actuaciones proc.id acts db.next_actuacion_id

/-- Every appended row is built by `mkActuacion` from some input record
and references the owning process. -/
theorem actuaciones_nuevas_mem (snap : List Actuacion) (procId : Nat)
    (acts : List DatosActuacion) : ∀ nextId x,
    x ∈ actuaciones_nuevas snap procId nextId acts →
    ∃ a ∈ acts, ∃ m, x = mkActuacion m procId a := by
  induction acts with
  | nil => intro n x hx; exact absurd hx (List.not_mem_nil x)
  | cons a rest ih =>
    intro n x hx
    unfold actuaciones_nuevas at hx
    cases hf : snap.find? (fun y => y.id_reg_actuacion == a.idRegActuacion) with
    | some ex =>
      rw [hf] at hx
      obtain ⟨b, hb, m, rfl⟩ := ih n x hx
      exact ⟨b, List.mem_cons_of_mem a hb, m, rfl⟩
    | none =>
      rw [hf] at hx
      rcases List.mem_cons.mp hx with rfl | hx'
      · exact ⟨a, List.mem_cons_self a rest, n, rfl⟩
      · obtain ⟨b, hb, m, rfl⟩ := ih (n + 1) x hx'
        exact ⟨b, List.mem_cons_of_mem a hb, m, rfl⟩

/-- The appended rows' identifiers all come from the input records. -/
theorem actuaciones_nuevas_ids_sub (snap : List Actuacion) (procId nextId : Nat)
    (acts : List DatosActuacion) :
    (actuaciones_nuevas snap procId nextId acts).map (·.id_reg_actuacion) ⊆
      acts.map (·.idRegActuacion) := by
  intro i hi
  obtain ⟨x, hx, rfl⟩ := List.mem_map.mp hi
  obtain ⟨a, ha, m, rfl⟩ := actuaciones_nuevas_mem snap procId acts nextId x hx
  exact List.mem_map.mpr ⟨a, ha, rfl⟩

/-- If the input identifiers are pairwise distinct and the store's are
too, the store after the append still has pairwise distinct
identifiers. -/
theorem actuaciones_nuevas_nodup (snap : List Actuacion) (procId : Nat)
    (acts : List DatosActuacion) : ∀ nextId,
    (acts.map (·.idRegActuacion)).Nodup →
    (snap.map (·.id_reg_actuacion)).Nodup →
    ((snap ++ actuaciones_nuevas snap procId nextId acts).map (·.id_reg_actuacion)).Nodup := by
  induction acts with
  | nil => intro n _ hsnap; simpa [actuaciones_nuevas] using hsnap
  | cons a rest ih =>
    intro n hacts hsnap
    have hacts' := (List.nodup_cons.mp hacts).2
    have hanotin := (List.nodup_cons.mp hacts).1
    unfold actuaciones_nuevas
    cases hf : snap.find? (fun y => y.id_reg_actuacion == a.idRegActuacion) with
    | some ex => exact ih n hacts' hsnap
    | none =>
      rw [List.map_append, List.map_cons, List.nodup_middle, ← List.map_append]
      refine List.nodup_cons.mpr ⟨?_, ih (n + 1) hacts' hsnap⟩
      rw [List.map_append]
      intro hmem
      rcases List.mem_append.mp hmem with hin | hin
      · obtain ⟨x, hx, hxe⟩ := List.mem_map.mp hin
        have := List.find?_eq_none.mp hf x hx
        simp only [beq_iff_eq] at this
        exact this (by simpa [mkActuacion] using hxe)
      · have : (mkActuacion n procId a).id_reg_actuacion ∈ rest.map (·.idRegActuacion) :=
          actuaciones_nuevas_ids_sub snap procId (n + 1) rest hin
        exact hanotin (by simpa [mkActuacion] using this)

/-- Every input record's identifier is present after the call. -/
theorem actuaciones_todas_presentes (snap : List Actuacion) (procId : Nat)
    (acts : List DatosActuacion) : ∀ nextId, ∀ a ∈ acts,
    ∃ x ∈ snap ++ actuaciones_nuevas snap procId nextId acts,
      (x.id_reg_actuacion == a.idRegActuacion) = true := by
  induction acts with
  | nil => intro n a ha; exact absurd ha (List.not_mem_nil a)
  | cons b rest ih =>
    intro n a ha
    unfold actuaciones_nuevas
    cases hf : snap.find? (fun y => y.id_reg_actuacion == b.idRegActuacion) with
    | some ex =>
      rcases List.mem_cons.mp ha with rfl | ha'
      · exact ⟨ex, List.mem_append_left _ (List.mem_of_find?_eq_some hf),
          by simpa using List.find?_some hf⟩
      · exact ih n a ha'
    | none =>
      rcases List.mem_cons.mp ha with rfl | ha'
      · refine ⟨mkActuacion n procId a, ?_, by simp [mkActuacion]⟩
        exact List.mem_append_right _ (List.mem_cons_self _ _)
      · obtain ⟨x, hx, hbeq⟩ := ih (n + 1) a ha'
        refine ⟨x, ?_, hbeq⟩
        rcases List.mem_append.mp hx with hin | hin
        · exact List.mem_append_left _ hin
        · exact List.mem_append_right _ (List.mem_cons_of_mem _ hin)

/-- When every input identifier is already stored, nothing is added. -/
theorem actuaciones_nuevas_nil_of_found (snap : List Actuacion) (procId : Nat)
    (acts : List DatosActuacion) : ∀ nextId,
    (∀ a ∈ acts, ∃ x ∈ snap, (x.id_reg_actuacion == a.idRegActuacion) = true) →
    actuaciones_nuevas snap procId nextId acts = [] := by
  induction acts with
  | nil => intro n _; rfl
  | cons a rest ih =>
    intro n hall
    unfold actuaciones_nuevas
    cases hf : snap.find? (fun y => y.id_reg_actuacion == a.idRegActuacion) with
    | some ex => exact ih n (fun b hb => hall b (List.mem_cons_of_mem a hb))
    | none =>
      exfalso
      obtain ⟨x, hx, hbeq⟩ := hall a (List.mem_cons_self a rest)
      exact absurd hbeq (by simpa using List.find?_eq_none.mp hf x hx)

/-- Every returned row is in the store after the call. -/
theorem actuaciones_guardadas_mem (snap : List Actuacion) (procId : Nat)
    (acts : List DatosActuacion) : ∀ nextId x,
    x ∈ actuaciones_guardadas snap procId nextId acts →
    x ∈ snap ++ actuaciones_nuevas snap procId nextId acts := by
  induction acts with
  | nil => intro n x hx; exact absurd hx (List.not_mem_nil x)
  | cons a rest ih =>
    intro n x hx
    unfold actuaciones_guardadas at hx
    unfold actuaciones_nuevas
    cases hf : snap.find? (fun y => y.id_reg_actuacion == a.idRegActuacion) with
    | some ex =>
      rw [hf] at hx
      rcases List.mem_cons.mp hx with rfl | hx'
      · exact List.mem_append_left _ (List.mem_of_find?_eq_some hf)
      · exact ih n x hx'
    | none =>
      rw [hf] at hx
      rcases List.mem_cons.mp hx with rfl | hx'
      · exact List.mem_append_right _ (List.mem_cons_self _ _)
      · rcases List.mem_append.mp (ih (n + 1) x hx') with hin | hin
        · exact List.mem_append_left _ hin
        · exact List.mem_append_right _ (List.mem_cons_of_mem _ hin)

theorem splitOnChar_append_cons {c : Char} {l₁ : List Char} (l₂ : List Char)
    (h : c ∉ l₁) : splitOnChar c (l₁ ++ c :: l₂) = l₁ :: splitOnChar c l₂ := by
  induction l₁ with
  | nil => simp [splitOnChar]
  | cons x xs ih =>
    have hx : x ≠ c := by
      rintro rfl
      exact h (List.mem_cons_self _ _)
    have hxs : c ∉ xs := fun hm => h (List.mem_cons_of_mem _ hm)
    simp only [List.cons_append, splitOnChar, if_neg hx, List.append_eq, ih hxs]

theorem strptime_Ymd_T_suffix (rest : String) :
    strptime_Ymd ("2024-03-15T" ++ rest) = none := by
  obtain ⟨h', t', hsp⟩ : ∃ h t, splitOnChar '-' rest.data = h :: t := by
    cases hc : splitOnChar '-' rest.data with
    | nil => exact absurd hc (splitOnChar_ne_nil _ _)
    | cons h t => exact ⟨h, t, rfl⟩
  have h15 : splitOnChar '-' ('1' :: '5' :: 'T' :: rest.data) =
      ('1' :: '5' :: 'T' :: h') :: t' := by
    simp +decide [splitOnChar, hsp]
  have hdata : ("2024-03-15T" ++ rest).data =
      ['2', '0', '2', '4'] ++ '-' :: (['0', '3'] ++ '-' :: ('1' :: '5' :: 'T' :: rest.data)) := by
    rw [String.data_append]
    rfl
  have hsplit : splitOnChar '-' ("2024-03-15T" ++ rest).data =
      ['2', '0', '2', '4'] :: ['0', '3'] :: ('1' :: '5' :: 'T' :: h') :: t' := by
    rw [hdata, splitOnChar_append_cons _ (by decide), splitOnChar_append_cons _ (by decide), h15]
  unfold strptime_Ymd
  rw [hsplit]
  cases t' with
  | nil => rfl
  | cons a as => rfl

theorem parse_date_T_trunc (rest : String) :
    parse_date (some ("2024-03-15T" ++ rest)) = some ⟨2024, 3, 15, 0, 0, 0⟩ := by
  have hdata : ("2024-03-15T" ++ rest).data = "2024-03-15".data ++ 'T' :: rest.data := by
    rw [String.data_append]
    rfl
  have hempty : ("2024-03-15T" ++ rest).data.isEmpty = false := by
    rw [String.data_append]
    rfl
  have hTsplit : (splitOnChar 'T' ("2024-03-15T" ++ rest).data).headD [] = "2024-03-15".data := by
    rw [hdata, splitOnChar_append_cons _ (by decide)]
    rfl
  simp only [parse_date, hempty, Bool.false_eq_true, if_false, strptime_Ymd_T_suffix, hTsplit]
  rfl

/-! ## Claims -/

/-- **C4.** `parse_date` yields the same calendar date for
`"2024-03-15"`, `"2024-03-15T00:00:00"` and `"2024-03-15T00:00:00Z"`,
and no value (without raising) for the empty string and `None`; it
accepts any `%Y-%m-%d` string — where `%Y` demands exactly four digits
(`"999-01-01"` yields no value) and `%d` also admits a space-padded
single digit (`"2024-01- 5"` parses) — truncates a `T`-suffixed string
at the first `'T'` (whatever follows the `'T'`) and parses the date
portion, and when both attempts fail it falls through to the full
ISO-8601 parse, whose failure again yields no value. -/
theorem c4_parse_date_policy :
    parse_date (some "2024-03-15") = some ⟨2024, 3, 15, 0, 0, 0⟩ ∧
    parse_date (some "2024-03-15T00:00:00") = some ⟨2024, 3, 15, 0, 0, 0⟩ ∧
    parse_date (some "2024-03-15T00:00:00Z") = some ⟨2024, 3, 15, 0, 0, 0⟩ ∧
    parse_date (some "") = none ∧
    parse_date none = none ∧
    parse_date (some "999-01-01") = none ∧
    parse_date (some "2024-01- 5") = some ⟨2024, 1, 5, 0, 0, 0⟩ ∧
    (∀ s d, strptime_Ymd s = some d → parse_date (some s) = some d) ∧
    (∀ rest : String, parse_date (some ("2024-03-15T" ++ rest)) = some ⟨2024, 3, 15, 0, 0, 0⟩) ∧
    (∀ s, strptime_Ymd s = none →
      strptime_Ymd ⟨(splitOnChar 'T' s.data).headD []⟩ = none →
      parse_date (some s) = fromisoformat s) := by
  refine ⟨rfl, rfl, rfl, rfl, rfl, rfl, rfl, ?_, parse_date_T_trunc, ?_⟩
  · intro s d h
    have hne : s.data.isEmpty = false := by
      cases hd : s.data with
      | nil =>
        exfalso
        unfold strptime_Ymd at h
        rw [hd] at h
        simp [splitOnChar] at h
      | cons a as => rfl
    simp only [parse_date, hne, Bool.false_eq_true, if_false, h]
  · intro s h1 h2
    by_cases he : s.data.isEmpty
    · have hnil : s.data = [] := List.isEmpty_iff.mp he
      have : fromisoformat s = none := by
        unfold fromisoformat
        rw [hnil]
      simp [parse_date, he, this]
    · simp only [parse_date, Bool.not_eq_true] at *
      simp only [he, Bool.false_eq_true, if_false, h1, h2]

/-- **C4 witness.** The `%Y-%m-%d` acceptance clause instantiated at a
concrete date string. -/
theorem c4_witness :
    strptime_Ymd "2024-07-09" = some ⟨2024, 7, 9, 0, 0, 0⟩ ∧
    parse_date (some "2024-07-09") = some ⟨2024, 7, 9, 0, 0, 0⟩ :=
  ⟨rfl, c4_parse_date_policy.2.2.2.2.2.2.2.1 "2024-07-09" _ rfl⟩

/-- **C3.** The keyword strategy lowercases the action label and decides
by case-insensitive substring match with first-match-wins priority. The
spec states the rule set in English translation; the source constants
are the Spanish originals: "hearing"/"summons"/"appearance" are
`audiencia`/`citación`/`comparecencia` yielding
Urgent=`Urgente`/`Audiencia`/action required; "requirement"/"request"/
"deadline" are `requerimiento`/`solicitud`/`plazo` yielding
High=`Alta`/`Requerimiento`/action required; "notification"/"notice"/
"communication" are `notificación`/`aviso`/`comunicación` yielding
Normal/`Notificación`/no action; anything else yields
Low=`Baja`/`Trámite`/no action. -/
theorem c3_keyword_classification (act : ActuacionDict) (s : String)
    (hlab : dictGet act.actuacion "" = PyStr.pystr s) :
    (palabras_audiencia.any (fun palabra => containsSub palabra (pyLower s)) = true →
      clasificar_actuacion_simulada act = .ok
        ⟨some "Urgente", some "Audiencia", some true,
          some "Las audiencias requieren preparación y asistencia obligatoria."⟩) ∧
    (palabras_audiencia.any (fun palabra => containsSub palabra (pyLower s)) = false →
      palabras_requerimiento.any (fun palabra => containsSub palabra (pyLower s)) = true →
      clasificar_actuacion_simulada act = .ok
        ⟨some "Alta", some "Requerimiento", some true,
          some "Existe un plazo definido para responder al requerimiento."⟩) ∧
    (palabras_audiencia.any (fun palabra => containsSub palabra (pyLower s)) = false →
      palabras_requerimiento.any (fun palabra => containsSub palabra (pyLower s)) = false →
      palabras_notificacion.any (fun palabra => containsSub palabra (pyLower s)) = true →
      clasificar_actuacion_simulada act = .ok
        ⟨some "Normal", some "Notificación", some false,
          some "Es una notificación informativa que no requiere acción inmediata."⟩) ∧
    (palabras_audiencia.any (fun palabra => containsSub palabra (pyLower s)) = false →
      palabras_requerimiento.any (fun palabra => containsSub palabra (pyLower s)) = false →
      palabras_notificacion.any (fun palabra => containsSub palabra (pyLower s)) = false →
      clasificar_actuacion_simulada act = .ok
        ⟨some "Baja", some "Trámite", some false,
          some "Actuación de trámite regular sin plazos críticos asociados."⟩) := by
  rw [clasificar_simulada_eq act s hlab]
  refine ⟨fun h1 => ?_, fun h1 h2 => ?_, fun h1 h2 h3 => ?_, fun h1 h2 h3 => ?_⟩
  · simp [h1]
  · simp [h1, h2]
  · simp [h1, h2, h3]
  · simp [h1, h2, h3]

/-- **C3 witness.** A label containing `AUDIENCIA` (upper case) is
classified urgent. -/
theorem c3_witness :
    dictGet (ActuacionDict.mk (some (PyStr.pystr "Fija fecha de AUDIENCIA inicial")) none none).actuacion ""
      = PyStr.pystr "Fija fecha de AUDIENCIA inicial" ∧
    palabras_audiencia.any
      (fun palabra => containsSub palabra (pyLower "Fija fecha de AUDIENCIA inicial")) = true ∧
    clasificar_actuacion_simulada
        (ActuacionDict.mk (some (PyStr.pystr "Fija fecha de AUDIENCIA inicial")) none none) = .ok
      ⟨some "Urgente", some "Audiencia", some true,
        some "Las audiencias requieren preparación y asistencia obligatoria."⟩ :=
  ⟨rfl, by decide,
    (c3_keyword_classification
      (ActuacionDict.mk (some (PyStr.pystr "Fija fecha de AUDIENCIA inicial")) none none)
      "Fija fecha de AUDIENCIA inicial" rfl).1 (by decide)⟩

/-- **C5 counterexample.** An upstream error whose `Message` is exactly
"Hay más de mil registros" — it contains the phrase the claim names, but
not the longer phrase `consultar_por_razon_social` actually matches — is
passed through as the generic registry error, not re-classified as the
distinguished over-broad-query error. -/
theorem c5_counterexample :
    consultar_por_razon_social "ACME" "jur" true "" 1
        (.httpError "400 Client Error" (some "Hay más de mil registros")) =
      .error "Error en la consulta a la API: 400 Client Error - Hay más de mil registros" ∧
    containsSub "Hay más de mil registros"
      "Error en la consulta a la API: 400 Client Error - Hay más de mil registros" = true ∧
    "Error en la consulta a la API: 400 Client Error - Hay más de mil registros" ≠
      msg_consulta_general :=
  ⟨rfl, by decide, by decide⟩

/-- **C5 amended.** A `consultar_por_razon_social` call whose failure
text contains the full upstream phrase "Hay más de mil registros con los
criterios especificados" is reported as the distinguished
narrow-your-query error; any other failure is passed through unchanged.
The test is a match on the exception text (for any upstream error text
and any transport kind), not on a status code. -/
theorem c5_query_too_broad (nombre tipo_persona : String) (solo_activos : Bool)
    (cod : String) (pagina : Nat) (r : UpstreamResult) (e : String)
    (herr : make_request r = .error e) :
    (containsSub frase_mil_registros e = true →
      consultar_por_razon_social nombre tipo_persona solo_activos cod pagina r =
        .error msg_consulta_general) ∧
    (containsSub frase_mil_registros e = false →
      consultar_por_razon_social nombre tipo_persona solo_activos cod pagina r =
        .error e) := by
  constructor <;> intro h <;> unfold consultar_por_razon_social <;> rw [herr] <;> simp [h]

/-- **C5 witness.** The full upstream phrase in the error body's
`Message` field triggers the distinguished error. -/
theorem c5_witness :
    make_request (.httpError "400 Client Error"
        (some "Hay más de mil registros con los criterios especificados")) =
      .error "Error en la consulta a la API: 400 Client Error - Hay más de mil registros con los criterios especificados" ∧
    containsSub frase_mil_registros
      "Error en la consulta a la API: 400 Client Error - Hay más de mil registros con los criterios especificados" = true ∧
    consultar_por_razon_social "ACME" "jur" true "" 1
        (.httpError "400 Client Error"
          (some "Hay más de mil registros con los criterios especificados")) =
      .error msg_consulta_general :=
  ⟨rfl, by decide,
    (c5_query_too_broad "ACME" "jur" true "" 1
      (.httpError "400 Client Error"
        (some "Hay más de mil registros con los criterios especificados"))
      "Error en la consulta a la API: 400 Client Error - Hay más de mil registros con los criterios especificados"
      rfl).1 (by decide)⟩

/-- **C6.** Attaching a classification to an `actionId` that is not in
the store returns the parent-missing outcome (`None`, not a raised
error) and leaves the store exactly as it was. -/
theorem c6_attach_classification_parent_missing (db : DB) (idr : String)
    (c : DatosClasificacion)
    (h : db.actuaciones.find? (fun a => a.id_reg_actuacion == some idr) = none) :
    guardar_clasificacion_actuacion db idr c = (db, none) := by
  unfold guardar_clasificacion_actuacion
  rw [h]

/-- **C6 witness.** On the empty store every `actionId` is missing. -/
theorem c6_witness :
    db_vacia.actuaciones.find? (fun a => a.id_reg_actuacion == some "A1") = none ∧
    guardar_clasificacion_actuacion db_vacia "A1" ⟨some "Alta", none, some true, none⟩ =
      (db_vacia, none) :=
  ⟨rfl, c6_attach_classification_parent_missing db_vacia "A1"
    ⟨some "Alta", none, some true, none⟩ rfl⟩

/-- **C7 counterexample.** On an existing process, a detail record that
carries no `demandantes`/`demandados` keys leaves the stored party-name
lists at their prior values while `clase_proceso` is overwritten (to the
absent-key value): the party-name-list overwrite is conditional, not
unconditional as the claim states. -/
theorem c7_counterexample :
    ((guardar_detalle_proceso db_p1 "P1" detalle_sin_partes).2.map (·.demandantes)) =
      some (some "[\x22OldCo\x22]") ∧
    ((guardar_detalle_proceso db_p1 "P1" detalle_sin_partes).2.map (·.demandados)) =
      some (some "[\x22OldDef\x22]") ∧
    ((guardar_detalle_proceso db_p1 "P1" detalle_sin_partes).2.map (·.clase_proceso)) =
      some none :=
  ⟨rfl, rfl, rfl⟩

/-- **C7 amended.** On an existing process, `guardar_detalle_proceso`
overwrites class, type, subtype, file location and privacy flag
unconditionally from the detail record, but rewrites the
claimant/respondent name lists only when the detail record carries the
respective key (otherwise they keep their prior values); every field
outside the detail set is untouched. On an absent `processId` it is a
no-op returning the not-found signal. -/
theorem c7_detalle_update (db : DB) (idp : String) (d : DetalleProceso) :
    (∀ p, db.procesos.find? (fun q => q.id_proceso_api == some idp) = some p →
      ∃ p', guardar_detalle_proceso db idp d =
          ({ db with procesos := db.procesos.map (fun q => if q.id = p.id then p' else q) },
            some p') ∧
        p'.clase_proceso = d.claseProceso ∧
        p'.tipo_proceso = d.tipoProceso ∧
        p'.subtipo_proceso = d.subTipoProceso ∧
        p'.ubicacion_expediente = d.ubicacionExpediente ∧
        p'.es_privado = d.esPrivado.getD false ∧
        p'.demandantes = (match d.demandantes with
          | some l => some (json_dumps_list l)
          | none => p.demandantes) ∧
        p'.demandados = (match d.demandados with
          | some l => some (json_dumps_list l)
          | none => p.demandados) ∧
        p'.id = p.id ∧
        p'.id_proceso_api = p.id_proceso_api ∧
        p'.llave_proceso = p.llave_proceso ∧
        p'.fecha_ultima_actuacion = p.fecha_ultima_actuacion ∧
        p'.fecha_consulta = p.fecha_consulta ∧
        p'.resumen_generado = p.resumen_generado ∧
        p'.empresa_id = p.empresa_id) ∧
    (db.procesos.find? (fun q => q.id_proceso_api == some idp) = none →
      guardar_detalle_proceso db idp d = (db, none)) := by
  constructor
  · intro p hp
    refine ⟨proceso_detallado p d, ?_, rfl, rfl, rfl, rfl, rfl, rfl, rfl, rfl, rfl, rfl,
      rfl, rfl, rfl, rfl⟩
    unfold guardar_detalle_proceso
    rw [hp]
  · intro hp
    unfold guardar_detalle_proceso
    rw [hp]

/-- **C7 witness.** The update branch applied on the one-process store
with a detail record that carries both party-name lists. -/
theorem c7_witness :
    db_p1.procesos.find? (fun q => q.id_proceso_api == some "P1") = some proceso_p1 ∧
    ∃ p', guardar_detalle_proceso db_p1 "P1" detalle_con_partes =
        ({ db_p1 with
            procesos := db_p1.procesos.map
              (fun q => if q.id = proceso_p1.id then p' else q) }, some p') ∧
      p'.clase_proceso = some "ClaseN" ∧
      p'.demandantes = some (json_dumps_list ["NewCo"]) := by
  refine ⟨rfl, ?_⟩
  obtain ⟨p', heq, hcl, -, -, -, -, hdem, -⟩ :=
    (c7_detalle_update db_p1 "P1" detalle_con_partes).1 proceso_p1 rfl
  exact ⟨p', heq, by rw [hcl]; rfl, by rw [hdem]; rfl⟩

/-- **C8 counterexample.** A record whose label key is present with
value `None` makes the keyword strategy (the strategy the hardcoded
`use_simulation = True` always selects) evaluate `None.lower()`, which
raises `AttributeError` instead of returning a classification. -/
theorem c8_counterexample :
    clasificar_actuacion use_simulation_default ⟨none, fun _ => none⟩
        (ActuacionDict.mk (some PyStr.pynone) none none) =
      .error .attributeError :=
  rfl

/-- **C8 amended.** `clasificar_actuacion` is deterministic and total —
returning a value with all four classification fields — for every record
whose label key is absent or holds a string; only a label key present
with value `None` raises (in the keyword strategy, the one
`use_simulation = True` always selects). In the model-backed branch the
call never raises regardless of the reply, and any invoke failure falls
back to the Normal/unclassified default. -/
theorem c8_classify_total (oracle : ModelOracle) (act : ActuacionDict) :
    (act.actuacion ≠ some PyStr.pynone →
      ∃ c, clasificar_actuacion use_simulation_default oracle act = .ok c ∧
        c.nivel_urgencia.isSome = true ∧ c.tipo_actuacion.isSome = true ∧
        c.requiere_accion.isSome = true ∧ c.justificacion.isSome = true) ∧
    (∃ c, clasificar_actuacion false oracle act = .ok c) ∧
    (oracle.invoke = none →
      clasificar_actuacion false oracle act = .ok clasificacion_fallback) := by
  refine ⟨?_, ?_, ?_⟩
  · intro hne
    have hstr : ∃ s, dictGet act.actuacion "" = PyStr.pystr s := by
      cases ha : act.actuacion with
      | none => exact ⟨"", rfl⟩
      | some v =>
        cases v with
        | pynone => exact absurd ha hne
        | pystr s => exact ⟨s, by simp [dictGet, ha]⟩
    obtain ⟨s, hs⟩ := hstr
    show ∃ c, clasificar_actuacion_simulada act = .ok c ∧ _
    rw [clasificar_simulada_eq act s hs]
    split
    · exact ⟨_, rfl, rfl, rfl, rfl, rfl⟩
    · split
      · exact ⟨_, rfl, rfl, rfl, rfl, rfl⟩
      · split
        · exact ⟨_, rfl, rfl, rfl, rfl, rfl⟩
        · exact ⟨_, rfl, rfl, rfl, rfl, rfl⟩
  · rw [clasificar_actuacion_nonsim]
    cases hinv : oracle.invoke with
    | none => exact ⟨_, rfl⟩
    | some texto =>
      dsimp only
      cases hf : pyFind openBrace texto with
      | none => exact ⟨_, rfl⟩
      | some i =>
        cases hr : pyRfind closeBrace texto with
        | none => exact ⟨_, rfl⟩
        | some j =>
          dsimp only
          split
          · split <;> exact ⟨_, rfl⟩
          · exact ⟨_, rfl⟩
  · intro hinv
    rw [clasificar_actuacion_nonsim, hinv]

/-- **C8 witness.** A record with the label key absent is classified by
the keyword strategy with all four fields present. -/
theorem c8_witness :
    (ActuacionDict.mk none none none).actuacion ≠ some PyStr.pynone ∧
    ∃ c, clasificar_actuacion use_simulation_default ⟨none, fun _ => none⟩
        (ActuacionDict.mk none none none) = .ok c ∧
      c.nivel_urgencia.isSome = true ∧ c.tipo_actuacion.isSome = true ∧
      c.requiere_accion.isSome = true ∧ c.justificacion.isSome = true :=
  ⟨by decide,
    (c8_classify_total ⟨none, fun _ => none⟩ (ActuacionDict.mk none none none)).1
      (by decide)⟩

set_option maxRecDepth 16384 in
/-- **C9 counterexample.** The rule-based summary is identical whether
the action list is empty or contains an action with a distinctive date,
label and annotation, and the produced text contains none of them: the
actions' date/label/annotation are not interpolated by this strategy
(only the dead model-backed branch interpolates them). -/
theorem c9_counterexample :
    generar_resumen_simulado ⟨some "R1", some "Juzgado 1", some ["A"], some ["B"]⟩
        [ActuacionDict.mk (some (PyStr.pystr "SENTENCIAXYZ"))
          (some (PyStr.pystr "ANOTACIONQZX")) (some (PyStr.pystr "2031-12-27"))] =
      generar_resumen_simulado ⟨some "R1", some "Juzgado 1", some ["A"], some ["B"]⟩ [] ∧
    containsSub "SENTENCIAXYZ"
      (generar_resumen_simulado ⟨some "R1", some "Juzgado 1", some ["A"], some ["B"]⟩
        [ActuacionDict.mk (some (PyStr.pystr "SENTENCIAXYZ"))
          (some (PyStr.pystr "ANOTACIONQZX")) (some (PyStr.pystr "2031-12-27"))]) = false ∧
    containsSub "2031-12-27"
      (generar_resumen_simulado ⟨some "R1", some "Juzgado 1", some ["A"], some ["B"]⟩
        [ActuacionDict.mk (some (PyStr.pystr "SENTENCIAXYZ"))
          (some (PyStr.pystr "ANOTACIONQZX")) (some (PyStr.pystr "2031-12-27"))]) = false :=
  ⟨rfl, by decide, by decide⟩

/-- **C9 amended.** The rule-based summary deterministically
interpolates the registration key, the office, and the comma-joined
claimant/respondent name lists (each defaulting to "No especificado" —
the spec's "not specified" — when absent) into a fixed three-paragraph
template; the action list is ignored by this strategy (the template only
refers to recent actions generically). -/
theorem c9_resumen_fixed_template (d : DetalleResumen) (acts1 acts2 : List ActuacionDict) :
    generar_resumen_simulado d acts1 = generar_resumen_simulado d acts2 ∧
    generar_resumen_simulado d acts1 =
      "El proceso judicial con radicado " ++ d.llaveProceso.getD "No especificado" ++
      " se encuentra actualmente en curso en el despacho " ++ d.despacho.getD "No especificado" ++
      ". Este proceso involucra a " ++
      String.intercalate ", " (d.demandantes.getD ["No especificado"]) ++
      " como parte demandante y a " ++
      String.intercalate ", " (d.demandados.getD ["No especificado"]) ++
      " como parte demandada.\n\n        " ++
      "Según las actuaciones recientes, el proceso ha tenido avances significativos en los últimos meses. " ++
      "Se han registrado notificaciones importantes y se han cumplido los términos procesales establecidos. " ++
      "Las actuaciones más recientes sugieren que el proceso está siguiendo su curso normal dentro de los tiempos esperados para este tipo de casos.\n\n        " ++
      "Es importante prestar atención a las próximas fechas de audiencia y a los requerimientos pendientes, ya que podrían ser determinantes para el desarrollo del proceso. " ++
      "Se recomienda mantener un seguimiento constante de las actuaciones futuras para asegurar el cumplimiento de todos los términos legales y evitar contratiempos procesales." :=
  ⟨rfl, rfl⟩

/-- **C10.** When `guardar_proceso` is called for an `idProceso` already
in the store: the company table and its counter are untouched (no Party
row created, linked or modified, even when a hint is supplied), the
returned row keeps its Party link, the stored `fecha_ultima_actuacion`
is replaced exactly when the payload's value parses (otherwise it keeps
its prior value), and `fecha_consulta` is refreshed. -/
theorem c10_update_frame (db : DB) (now : PyDateTime) (dp : DatosProceso)
    (de : Option DatosEmpresa) (p : Proceso)
    (hfind : db.procesos.find? (fun q => q.id_proceso_api == dp.idProceso) = some p) :
    (guardar_proceso db now dp de).1.empresas = db.empresas ∧
    (guardar_proceso db now dp de).1.next_empresa_id = db.next_empresa_id ∧
    (guardar_proceso db now dp de).2.empresa_id = p.empresa_id ∧
    (parse_date dp.fechaUltimaActuacion = none →
      (guardar_proceso db now dp de).2.fecha_ultima_actuacion = p.fecha_ultima_actuacion) ∧
    (∀ d, parse_date dp.fechaUltimaActuacion = some d →
      (guardar_proceso db now dp de).2.fecha_ultima_actuacion = some d) ∧
    (guardar_proceso db now dp de).2.fecha_consulta = now := by
  rw [guardar_proceso_update db now dp de p hfind]
  refine ⟨rfl, rfl, rfl, ?_, ?_, rfl⟩
  · intro h
    simp only [proceso_actualizado, h]
  · intro d h
    simp only [proceso_actualizado, h]

/-- **C10 witness.** Re-ingesting `"P1"` with an unparseable
`fechaUltimaActuacion` and a company hint: the company table stays
empty and the stored date keeps its prior value. -/
theorem c10_witness :
    db_p1.procesos.find?
        (fun q => q.id_proceso_api == datos_p1_mala_fecha.idProceso) = some proceso_p1 ∧
    parse_date datos_p1_mala_fecha.fechaUltimaActuacion = none ∧
    (guardar_proceso db_p1 fecha0 datos_p1_mala_fecha (some datos_empresa_acme)).1.empresas = [] ∧
    (guardar_proceso db_p1 fecha0 datos_p1_mala_fecha
        (some datos_empresa_acme)).2.fecha_ultima_actuacion = some fecha0 := by
  have h := c10_update_frame db_p1 fecha0 datos_p1_mala_fecha (some datos_empresa_acme)
    proceso_p1 rfl
  exact ⟨rfl, rfl, h.1.trans rfl, (h.2.2.2.1 rfl).trans rfl⟩

/-- **C1.** Calling `guardar_proceso` twice with payloads carrying the
same fresh `processId` leaves exactly one row with that identifier in
the store, and the second call changes only `fecha_ultima_actuacion`
(per the parse-success rule) and `fecha_consulta`: every other field of
the returned row — key, display key, filing date, office, department,
party-list summary, detail fields, privacy flag, party-name lists,
summary, and the Party link — equals its first-insert value even though
the second payload may report different values. -/
theorem c1_upsert_idempotent (db : DB) (now1 now2 : PyDateTime)
    (d1 d2 : DatosProceso) (e1 e2 : Option DatosEmpresa) (pid : String)
    (h1 : d1.idProceso = some pid) (h2 : d2.idProceso = some pid)
    (hfresh : ∀ p ∈ db.procesos, p.id_proceso_api ≠ some pid)
    (hid : ∀ p ∈ db.procesos, p.id < db.next_proceso_id) :
    procesos_con_id
      (guardar_proceso (guardar_proceso db now1 d1 e1).1 now2 d2 e2).1 pid = 1 ∧
    (guardar_proceso (guardar_proceso db now1 d1 e1).1 now2 d2 e2).2.id =
      (guardar_proceso db now1 d1 e1).2.id ∧
    (guardar_proceso (guardar_proceso db now1 d1 e1).1 now2 d2 e2).2.id_proceso_api =
      (guardar_proceso db now1 d1 e1).2.id_proceso_api ∧
    (guardar_proceso (guardar_proceso db now1 d1 e1).1 now2 d2 e2).2.llave_proceso =
      (guardar_proceso db now1 d1 e1).2.llave_proceso ∧
    (guardar_proceso (guardar_proceso db now1 d1 e1).1 now2 d2 e2).2.fecha_proceso =
      (guardar_proceso db now1 d1 e1).2.fecha_proceso ∧
    (guardar_proceso (guardar_proceso db now1 d1 e1).1 now2 d2 e2).2.despacho =
      (guardar_proceso db now1 d1 e1).2.despacho ∧
    (guardar_proceso (guardar_proceso db now1 d1 e1).1 now2 d2 e2).2.departamento =
      (guardar_proceso db now1 d1 e1).2.departamento ∧
    (guardar_proceso (guardar_proceso db now1 d1 e1).1 now2 d2 e2).2.sujetos_procesales =
      (guardar_proceso db now1 d1 e1).2.sujetos_procesales ∧
    (guardar_proceso (guardar_proceso db now1 d1 e1).1 now2 d2 e2).2.clase_proceso =
      (guardar_proceso db now1 d1 e1).2.clase_proceso ∧
    (guardar_proceso (guardar_proceso db now1 d1 e1).1 now2 d2 e2).2.tipo_proceso =
      (guardar_proceso db now1 d1 e1).2.tipo_proceso ∧
    (guardar_proceso (guardar_proceso db now1 d1 e1).1 now2 d2 e2).2.subtipo_proceso =
      (guardar_proceso db now1 d1 e1).2.subtipo_proceso ∧
    (guardar_proceso (guardar_proceso db now1 d1 e1).1 now2 d2 e2).2.ubicacion_expediente =
      (guardar_proceso db now1 d1 e1).2.ubicacion_expediente ∧
    (guardar_proceso (guardar_proceso db now1 d1 e1).1 now2 d2 e2).2.es_privado =
      (guardar_proceso db now1 d1 e1).2.es_privado ∧
    (guardar_proceso (guardar_proceso db now1 d1 e1).1 now2 d2 e2).2.demandantes =
      (guardar_proceso db now1 d1 e1).2.demandantes ∧
    (guardar_proceso (guardar_proceso db now1 d1 e1).1 now2 d2 e2).2.demandados =
      (guardar_proceso db now1 d1 e1).2.demandados ∧
    (guardar_proceso (guardar_proceso db now1 d1 e1).1 now2 d2 e2).2.resumen_generado =
      (guardar_proceso db now1 d1 e1).2.resumen_generado ∧
    (guardar_proceso (guardar_proceso db now1 d1 e1).1 now2 d2 e2).2.empresa_id =
      (guardar_proceso db now1 d1 e1).2.empresa_id ∧
    (guardar_proceso (guardar_proceso db now1 d1 e1).1 now2 d2 e2).2.fecha_consulta = now2 ∧
    (guardar_proceso (guardar_proceso db now1 d1 e1).1 now2 d2 e2).2.fecha_ultima_actuacion =
      (match parse_date d2.fechaUltimaActuacion with
        | some d => some d
        | none => (guardar_proceso db now1 d1 e1).2.fecha_ultima_actuacion) := by
  have hfind1 : db.procesos.find? (fun q => q.id_proceso_api == d1.idProceso) = none := by
    rw [List.find?_eq_none]
    intro x hx
    simp only [h1, beq_iff_eq]
    exact hfresh x hx
  rw [guardar_proceso_insert db now1 d1 e1 hfind1]
  have hnuevoid : (proceso_nuevo db now1 d1 e1).id_proceso_api = some pid := h1
  have hnid : (proceso_nuevo db now1 d1 e1).id = db.next_proceso_id :=
    empresa_db_next_proceso_id db now1 e1
  have hall : ∀ a ∈ db.procesos, (a.id_proceso_api == d2.idProceso) = false := by
    intro a ha
    simp only [h2, beq_eq_false_iff_ne, ne_eq]
    exact hfresh a ha
  have hfind2 :
      (({ empresa_db db now1 e1 with
          procesos := (empresa_db db now1 e1).procesos ++ [proceso_nuevo db now1 d1 e1]
          next_proceso_id := (empresa_db db now1 e1).next_proceso_id + 1 } : DB)).procesos.find?
        (fun q => q.id_proceso_api == d2.idProceso) = some (proceso_nuevo db now1 d1 e1) := by
    show ((empresa_db db now1 e1).procesos ++ [proceso_nuevo db now1 d1 e1]).find? _ =
      some (proceso_nuevo db now1 d1 e1)
    rw [empresa_db_procesos, find?_append_of_none hall]
    simp [List.find?, hnuevoid, h2]
  rw [guardar_proceso_update _ now2 d2 e2 _ hfind2]
  refine ⟨?_, rfl, rfl, rfl, rfl, rfl, rfl, rfl, rfl, rfl, rfl, rfl, rfl, rfl, rfl, rfl,
    rfl, rfl, rfl⟩
  unfold procesos_con_id
  show (((((empresa_db db now1 e1).procesos ++ [proceso_nuevo db now1 d1 e1])).map
      (fun q => if q.id = (proceso_nuevo db now1 d1 e1).id then
        proceso_actualizado (proceso_nuevo db now1 d1 e1) now2 d2 else q)).filter
      (fun p => p.id_proceso_api == some pid)).length = 1
  rw [empresa_db_procesos, List.map_append]
  rw [map_eq_self_of (f := fun q => if q.id = (proceso_nuevo db now1 d1 e1).id then
      proceso_actualizado (proceso_nuevo db now1 d1 e1) now2 d2 else q)
    (fun a ha => if_neg (fun he => Nat.ne_of_lt (hid a ha) (he.trans hnid)))]
  have hmapone : ([proceso_nuevo db now1 d1 e1].map
      (fun q => if q.id = (proceso_nuevo db now1 d1 e1).id then
        proceso_actualizado (proceso_nuevo db now1 d1 e1) now2 d2 else q)) =
      [proceso_actualizado (proceso_nuevo db now1 d1 e1) now2 d2] := by
    simp
  rw [hmapone, List.filter_append]
  rw [List.filter_eq_nil_iff.mpr (by
    intro a ha
    simp only [beq_iff_eq]
    exact hfresh a ha)]
  have hpa : (proceso_actualizado (proceso_nuevo db now1 d1 e1) now2 d2).id_proceso_api =
      some pid := hnuevoid
  simp [List.filter, hpa]

/-- **C1 witness.** Two ingestions of process `"P2"` into the empty
store, with every non-key field different between the payloads: one row
remains and the display key keeps its first-insert value. -/
theorem c1_witness :
    datos_p2_a.idProceso = some "P2" ∧
    datos_p2_b.idProceso = some "P2" ∧
    (∀ p ∈ db_vacia.procesos, p.id_proceso_api ≠ some "P2") ∧
    (∀ p ∈ db_vacia.procesos, p.id < db_vacia.next_proceso_id) ∧
    procesos_con_id
      (guardar_proceso (guardar_proceso db_vacia fecha0 datos_p2_a none).1
        ⟨2024, 2, 2, 0, 0, 0⟩ datos_p2_b none).1 "P2" = 1 ∧
    (guardar_proceso (guardar_proceso db_vacia fecha0 datos_p2_a none).1
        ⟨2024, 2, 2, 0, 0, 0⟩ datos_p2_b none).2.llave_proceso =
      (guardar_proceso db_vacia fecha0 datos_p2_a none).2.llave_proceso := by
  have h := c1_upsert_idempotent db_vacia fecha0 ⟨2024, 2, 2, 0, 0, 0⟩
    datos_p2_a datos_p2_b none none "P2" rfl rfl
    (by intro p hp; simp [db_vacia] at hp) (by intro p hp; simp [db_vacia] at hp)
  exact ⟨rfl, rfl, by intro p hp; simp [db_vacia] at hp,
    by intro p hp; simp [db_vacia] at hp, h.1, h.2.2.2.1⟩

/-- **C2.** `guardar_actuaciones` on an existing process: the store's
prior action rows are untouched (the result extends them), every
appended row is built by `mkActuacion` from one of the input records
with a reference to the process, the returned list carries the input
records' identifiers in input order and all its rows are in the
resulting store, distinct input identifiers added to a
distinct-identifier store keep the store free of duplicate identifiers,
and a second call with the same list returns the same identifier
sequence and appends nothing. -/
theorem c2_upsert_actions (db : DB) (idp : String) (acts : List DatosActuacion)
    (proc : Proceso)
    (hfind : db.procesos.find? (fun p => p.id_proceso_api == some idp) = some proc) :
    ((guardar_actuaciones db idp acts).1.actuaciones =
      db.actuaciones ++ actuaciones_nuevas db.actuaciones proc.id db.next_actuacion_id acts) ∧
    (∀ x ∈ actuaciones_nuevas db.actuaciones proc.id db.next_actuacion_id acts,
      x.proceso_id = proc.id ∧ ∃ a ∈ acts, ∃ m, x = mkActuacion m proc.id a) ∧
    ((guardar_actuaciones db idp acts).2.map (·.id_reg_actuacion) =
      acts.map (·.idRegActuacion)) ∧
    (∀ x ∈ (guardar_actuaciones db idp acts).2,
      x ∈ (guardar_actuaciones db idp acts).1.actuaciones) ∧
    ((acts.map (·.idRegActuacion)).Nodup →
      (db.actuaciones.map (·.id_reg_actuacion)).Nodup →
      ((guardar_actuaciones db idp acts).1.actuaciones.map (·.id_reg_actuacion)).Nodup) ∧
    ((guardar_actuaciones (guardar_actuaciones db idp acts).1 idp acts).2.map
        (·.id_reg_actuacion) =
      (guardar_actuaciones db idp acts).2.map (·.id_reg_actuacion)) ∧
    ((guardar_actuaciones (guardar_actuaciones db idp acts).1 idp acts).1.actuaciones =
      (guardar_actuaciones db idp acts).1.actuaciones) := by
  have hfind2 : (guardar_actuaciones db idp acts).1.procesos.find?
      (fun p => p.id_proceso_api == some idp) = some proc := by
    rw [guardar_actuaciones_procesos]
    exact hfind
  refine ⟨?_, ?_, guardar_actuaciones_snd_ids db idp acts proc hfind, ?_, ?_, ?_, ?_⟩
  · exact guardar_actuaciones_fst_actuaciones db idp acts proc hfind
  · intro x hx
    obtain ⟨a, ha, m, rfl⟩ :=
      actuaciones_nuevas_mem db.actuaciones proc.id acts db.next_actuacion_id x hx
    exact ⟨rfl, a, ha, m, rfl⟩
  · intro x hx
    rw [guardar_actuaciones_found db idp acts proc hfind] at hx ⊢
    exact actuaciones_guardadas_mem db.actuaciones proc.id acts db.next_actuacion_id x hx
  · intro h1 h2
    rw [guardar_actuaciones_fst_actuaciones db idp acts proc hfind]
    exact actuaciones_nuevas_nodup db.actuaciones proc.id acts db.next_actuacion_id h1 h2
  · rw [guardar_actuaciones_snd_ids _ idp acts proc hfind2,
      guardar_actuaciones_snd_ids db idp acts proc hfind]
  · rw [guardar_actuaciones_fst_actuaciones _ idp acts proc hfind2,
      guardar_actuaciones_fst_actuaciones db idp acts proc hfind,
      guardar_actuaciones_fst_next db idp acts proc hfind,
      actuaciones_nuevas_nil_of_found _ proc.id acts _
        (fun a ha =>
          actuaciones_todas_presentes db.actuaciones proc.id acts db.next_actuacion_id a ha),
      List.append_nil]

/-- **C2 witness.** Two ingestions of the same two-record action list
into the one-process store: the returned identifier sequence matches the
input, and the second call leaves the action table unchanged. -/
theorem c2_witness :
    db_p1.procesos.find? (fun p => p.id_proceso_api == some "P1") = some proceso_p1 ∧
    ((guardar_actuaciones db_p1 "P1" [act_a1, act_a2]).2.map (·.id_reg_actuacion) =
      [some "A1", some "A2"]) ∧
    ((guardar_actuaciones (guardar_actuaciones db_p1 "P1" [act_a1, act_a2]).1 "P1"
        [act_a1, act_a2]).1.actuaciones =
      (guardar_actuaciones db_p1 "P1" [act_a1, act_a2]).1.actuaciones) := by
  have h := c2_upsert_actions db_p1 "P1" [act_a1, act_a2] proceso_p1 rfl
  exact ⟨rfl, h.2.2.1.trans rfl, h.2.2.2.2.2.2⟩

end Judicial
